import Mathlib

/-!
Verification of the SQLCMD multi-server script generator
(src/scriptGenerator.py, function generate_sqlcmd and its helper
open_csv_safely).  The Python code is shallowly embedded: file contents
are lists of byte values, decoded text is a String, the csv module's
reader (restricted to unquoted fields, the only shape this program's
inputs use) is a split on newlines and commas, and the two filesystem
effects of a run (creating the output directory, writing the output
file) are recorded in an explicit trace.
-/

set_option maxRecDepth 8192

/-- Failure modes of one generation run, one constructor per distinct
raise site reachable from generate_sqlcmd:
schemaError is the ValueError for invalid CSV headers;
encodingError is the ValueError raised by open_csv_safely when every
candidate encoding fails at open time;
unicodeDecodeError is an uncaught UnicodeDecodeError surfacing while
the rows are being read (decoding is deferred by Python's open);
attributeError is an uncaught AttributeError from calling .strip() on
the None a DictReader substitutes for a missing field. -/
inductive GenError where
  | schemaError
  | encodingError
  | unicodeDecodeError
  | attributeError
deriving DecidableEq

/-- Whitespace characters removed by Python's str.strip() (the ASCII
ones; the inputs of this program are identifiers, so the additional
Unicode whitespace Python also strips is not modelled). -/
def isPySpace (c : Char) : Bool :=
  c == ' ' || c == '\t' || c == '\n' || c == '\r' ||
    c == Char.ofNat 11 || c == Char.ofNat 12

/-- Python str.strip(): drop leading and trailing whitespace. -/
def pyStrip (s : String) : String :=
  ⟨((s.data.dropWhile isPySpace).reverse.dropWhile isPySpace).reverse⟩

/-- The banner literal SQLCMD_BANNER of the source, byte for byte
(a triple-quoted Python string, so it carries the source indentation
and ends with a newline and four spaces). -/
def SQLCMD_BANNER : String :=
  "/*****************************************************************************************\n    ******************************************************************************************\n    **                                                                                      **\n    **                                                                                      **\n    **                                                                                      **\n    **                                                                                      **\n    **   SQLCMD MODE REQUIRED                                                               **\n    **                                                                                      **\n    **   IMPORTANT: This script uses SQLCMD directives and will FAIL if                     **\n    **   SQLCMD Mode is not enabled.                                                        **\n    **                                                                                      **\n    **   REQUIRED STEPS IN SSMS:                                                            **\n    **                                                                                      **\n    **                Query -> SQLCMD Mode                                                  **\n    **                                                                                      **\n    **                                                                                      **\n    **                                                                                      **\n    **                                                                                      **\n    ******************************************************************************************\n    ******************************************************************************************/\n    "

/-- Lines 92-104 of the source: the fixed preamble pushed into `lines`
before the CSV is read.  Each setvar value is interpolated verbatim,
with no escaping. -/
def headerLines (sql_script_path username password : String) : List String :=
  [SQLCMD_BANNER,
   "",
   ":setvar USERNAME \"" ++ username ++ "\"",
   ":setvar PASSWORD \"" ++ password ++ "\"",
   ":setvar SCRIPT \"" ++ sql_script_path ++ "\"",
   "",
   "------------------------------------------------------------",
   "-- BEGIN EXECUTION",
   "------------------------------------------------------------",
   "",
   ""]

/-- Lines 125-134 of the source: the block appended for row number `i`.
The last element is one string: the source list is missing the commas
after its sixth and seventh entries, so Python concatenates the three
adjacent literals (the 93-dash PRINT, the empty PRINT and the empty
string) into a single line. -/
def rowBlock (i : Nat) (server database : String) : List String :=
  ["PRINT '--- [" ++ toString i ++ "] " ++ database ++ " on " ++ server ++ " ---'",
   ":CONNECT " ++ server ++ " -U $(USERNAME) -P $(PASSWORD)",
   "USE [" ++ database ++ "];",
   ":r $(SCRIPT)",
   "GO",
   "PRINT '---------------------------------------------------------------------------------------------'PRINT ''"]

/-- Index of the first occurrence of `key` among the field names, the
position Python's dict built by csv.DictReader binds the key to. -/
def dictIndexOf (key : String) : List String → Option Nat
  | [] => none
  | f :: fs => if f == key then some 0 else (dictIndexOf key fs).map (· + 1)

/-- Value of `row[key]` for a csv.DictReader row: the record's field in
the key's column, or none when the record is shorter than the header
(DictReader fills missing fields with its restval, None). -/
def dictRow_get (fieldnames record : List String) (key : String) : Option String :=
  match dictIndexOf key fieldnames with
  | some i => record.get? i
  | none => none

/-- Lines 122-134 of the source, one loop iteration: fetch and strip the
two fields, then build the block.  Calling .strip() on the None of a
missing field raises an uncaught AttributeError. -/
def processRow (i : Nat) (record : List String) : Except GenError (List String) :=
  match dictRow_get ["server", "database"] record "server" with
  | none => .error .attributeError
  | some sv =>
    match dictRow_get ["server", "database"] record "database" with
    | none => .error .attributeError
    | some db => .ok (rowBlock i (pyStrip sv) (pyStrip db))

/-- The `for i, row in enumerate(reader, start=1)` loop: blocks are
accumulated in row order and the first failing row aborts the run. -/
def buildBlocks : Nat → List (List String) → Except GenError (List String)
  | _, [] => .ok []
  | i, r :: rs =>
    match processRow i r with
    | .error e => .error e
    | .ok b =>
      match buildBlocks (i + 1) rs with
      | .error e => .error e
      | .ok rest => .ok (b ++ rest)

/-- The data rows a csv.DictReader yields: every record after the header
row, with blank records (empty input lines) skipped. -/
def validRows (records : List (List String)) : List (List String) :=
  (records.drop 1).filter (fun r => !r.isEmpty)

/-- Lines 110-134 of the source: the header check
`reader.fieldnames != ["server", "database"]` (a list comparison, so
column order matters) followed by the row loop; on success the output
is the preamble followed by the accumulated blocks. -/
def buildLines (records : List (List String)) (sql_script_path username password : String) :
    Except GenError (List String) :=
  if records.head? = some ["server", "database"] then
    match buildBlocks 1 (validRows records) with
    | .error e => .error e
    | .ok blocks => .ok (headerLines sql_script_path username password ++ blocks)
  else .error .schemaError

/-- The candidate encodings of open_csv_safely, in order. -/
inductive PyEncoding where
  | utf8sig
  | cp1252
deriving DecidableEq

/-- An open Python file handle: the raw bytes plus the encoding chosen
at open time; no text has been decoded yet. -/
structure PyHandle where
  bytes : List Nat
  enc : PyEncoding
deriving DecidableEq

/-- Python's open(csv_path, encoding=enc): opening performs no decoding,
so a UnicodeDecodeError can never be raised here; it always succeeds on
an existing file. -/
def pyOpen (bytes : List Nat) (enc : PyEncoding) : Except GenError PyHandle :=
  .ok ⟨bytes, enc⟩

/-- The loop body of open_csv_safely over encodings_to_try: return the
first handle that opens, falling through on a UnicodeDecodeError. -/
def openLoop (bytes : List Nat) : List PyEncoding → Except GenError PyHandle
  | [] => .error .encodingError
  | e :: rest =>
    match pyOpen bytes e with
    | .ok f => .ok f
    | .error _ => openLoop bytes rest

/-- Lines 144-162 of the source: open_csv_safely tries utf-8-sig then
cp1252, raising the re-save-as-UTF-8 ValueError only if every open
fails. -/
def open_csv_safely (bytes : List Nat) : Except GenError PyHandle :=
  openLoop bytes [PyEncoding.utf8sig, PyEncoding.cp1252]

/-- Strict UTF-8 decoding of a byte list (fuel-driven; the fuel is the
list length, ample since every step consumes at least one byte).
Rejects stray continuation bytes, overlong forms, surrogates and
code points above 0x10FFFF, as Python's strict utf-8 codec does. -/
def utf8DecodeFuel : Nat → List Nat → Option (List Char)
  | _, [] => some []
  | 0, _ :: _ => none
  | fuel + 1, b :: bs =>
    if b < 0x80 then
      (utf8DecodeFuel fuel bs).map (fun cs => Char.ofNat b :: cs)
    else if b < 0xC2 then none
    else if b < 0xE0 then
      match bs with
      | b2 :: bs2 =>
        if 0x80 ≤ b2 && b2 < 0xC0 then
          (utf8DecodeFuel fuel bs2).map
            (fun cs => Char.ofNat ((b - 0xC0) * 0x40 + (b2 - 0x80)) :: cs)
        else none
      | [] => none
    else if b < 0xF0 then
      match bs with
      | b2 :: b3 :: bs3 =>
        let lo2 : Nat := if b == 0xE0 then 0xA0 else 0x80
        let hi2 : Nat := if b == 0xED then 0xA0 else 0xC0
        if (lo2 ≤ b2 && b2 < hi2) && (0x80 ≤ b3 && b3 < 0xC0) then
          (utf8DecodeFuel fuel bs3).map
            (fun cs => Char.ofNat ((b - 0xE0) * 0x1000 + (b2 - 0x80) * 0x40 + (b3 - 0x80)) :: cs)
        else none
      | _ => none
    else if b < 0xF5 then
      match bs with
      | b2 :: b3 :: b4 :: bs4 =>
        let lo2 : Nat := if b == 0xF0 then 0x90 else 0x80
        let hi2 : Nat := if b == 0xF4 then 0x90 else 0xC0
        if (lo2 ≤ b2 && b2 < hi2) && (0x80 ≤ b3 && b3 < 0xC0) && (0x80 ≤ b4 && b4 < 0xC0) then
          (utf8DecodeFuel fuel bs4).map
            (fun cs => Char.ofNat
              ((b - 0xF0) * 0x40000 + (b2 - 0x80) * 0x1000 + (b3 - 0x80) * 0x40 + (b4 - 0x80)) :: cs)
        else none
      | _ => none
    else none

/-- Strict UTF-8 decoding of a whole byte list. -/
def utf8Decode (bs : List Nat) : Option (List Char) :=
  utf8DecodeFuel bs.length bs

/-- Python's utf-8-sig codec: strip one leading byte-order mark if
present, then decode as strict UTF-8. -/
def utf8SigDecode (bs : List Nat) : Option (List Char) :=
  match bs with
  | 0xEF :: 0xBB :: 0xBF :: rest => utf8Decode rest
  | _ => utf8Decode bs

/-- One byte of Windows code page 1252.  Bytes 0x00-0x7F and 0xA0-0xFF
map to the code point of the same value; 0x80-0x9F use the cp1252
table; the five bytes the code page leaves undefined fail. -/
def cp1252Byte (b : Nat) : Option Char :=
  if b < 0x80 then some (Char.ofNat b)
  else if 0xA0 ≤ b && b ≤ 0xFF then some (Char.ofNat b)
  else
    match b with
    | 0x80 => some (Char.ofNat 0x20AC)
    | 0x82 => some (Char.ofNat 0x201A)
    | 0x83 => some (Char.ofNat 0x0192)
    | 0x84 => some (Char.ofNat 0x201E)
    | 0x85 => some (Char.ofNat 0x2026)
    | 0x86 => some (Char.ofNat 0x2020)
    | 0x87 => some (Char.ofNat 0x2021)
    | 0x88 => some (Char.ofNat 0x02C6)
    | 0x89 => some (Char.ofNat 0x2030)
    | 0x8A => some (Char.ofNat 0x0160)
    | 0x8B => some (Char.ofNat 0x2039)
    | 0x8C => some (Char.ofNat 0x0152)
    | 0x8E => some (Char.ofNat 0x017D)
    | 0x91 => some (Char.ofNat 0x2018)
    | 0x92 => some (Char.ofNat 0x2019)
    | 0x93 => some (Char.ofNat 0x201C)
    | 0x94 => some (Char.ofNat 0x201D)
    | 0x95 => some (Char.ofNat 0x2022)
    | 0x96 => some (Char.ofNat 0x2013)
    | 0x97 => some (Char.ofNat 0x2014)
    | 0x98 => some (Char.ofNat 0x02DC)
    | 0x99 => some (Char.ofNat 0x2122)
    | 0x9A => some (Char.ofNat 0x0161)
    | 0x9B => some (Char.ofNat 0x203A)
    | 0x9C => some (Char.ofNat 0x0153)
    | 0x9E => some (Char.ofNat 0x017E)
    | 0x9F => some (Char.ofNat 0x0178)
    | _ => none

/-- Windows-1252 decoding of a byte list. -/
def cp1252Decode : List Nat → Option (List Char)
  | [] => some []
  | b :: bs =>
    match cp1252Byte b, cp1252Decode bs with
    | some c, some cs => some (c :: cs)
    | _, _ => none

/-- Decode a byte list under one of the candidate encodings. -/
def decodeBytes : PyEncoding → List Nat → Option (List Char)
  | .utf8sig, bs => utf8SigDecode bs
  | .cp1252, bs => cp1252Decode bs

/-- Reading the rows through an open handle: the deferred decoding
happens now, and a failure is an uncaught UnicodeDecodeError (nothing
in generate_sqlcmd catches it). -/
def readAll (f : PyHandle) : Except GenError String :=
  match decodeBytes f.enc f.bytes with
  | some cs => .ok ⟨cs⟩
  | none => .error .unicodeDecodeError

/-- Split a character list at every occurrence of `c` (the separator is
consumed; an accumulator keeps the current piece in reverse). -/
def splitOnCharAux (c : Char) : List Char → List Char → List (List Char)
  | [], acc => [acc.reverse]
  | x :: xs, acc =>
    if x == c then acc.reverse :: splitOnCharAux c xs []
    else splitOnCharAux c xs (x :: acc)

/-- Split a character list on a separator character. -/
def splitOnChar (c : Char) (cs : List Char) : List (List Char) :=
  splitOnCharAux c cs []

/-- One line of the CSV as csv.reader sees it: a trailing carriage
return belongs to the line terminator, a blank line is the empty
record, and any other line splits on commas (the inputs of this
program carry no quoted fields, so the csv module's quoting rules are
not modelled). -/
def csvRecord (lineChars : List Char) : List String :=
  let l :=
    match lineChars.getLast? with
    | some c => if c == '\r' then lineChars.dropLast else lineChars
    | none => lineChars
  if l.isEmpty then [] else (splitOnChar ',' l).map (fun f => ⟨f⟩)

/-- The decoded CSV text as a list of records. -/
def csvParse (text : String) : List (List String) :=
  (splitOnChar '\n' text.data).map csvRecord

/-- A wall-clock instant as datetime.now() exposes it to strftime. -/
structure Timestamp where
  year : Nat
  month : Nat
  day : Nat
  hour : Nat
  minute : Nat
  second : Nat
deriving DecidableEq

/-- Ranges a datetime.now() result always satisfies (years of four
digits, calendar month and day, 24-hour clock). -/
def Timestamp.Valid (t : Timestamp) : Prop :=
  1000 ≤ t.year ∧ t.year ≤ 9999 ∧ 1 ≤ t.month ∧ t.month ≤ 12 ∧
    1 ≤ t.day ∧ t.day ≤ 31 ∧ t.hour ≤ 23 ∧ t.minute ≤ 59 ∧ t.second ≤ 59

instance (t : Timestamp) : Decidable t.Valid := by
  unfold Timestamp.Valid
  infer_instance

/-- The ASCII digit character of a decimal digit. -/
def digitChar' (d : Nat) : Char := Char.ofNat (48 + d)

/-- Two-digit zero-padded decimal rendering, as strftime's %m, %d, %H,
%M and %S produce for their in-range arguments. -/
def pad2 (n : Nat) : List Char := [digitChar' (n / 10), digitChar' (n % 10)]

/-- Four-digit zero-padded decimal rendering, as strftime's %Y produces
for four-digit years. -/
def pad4 (n : Nat) : List Char := pad2 (n / 100) ++ pad2 (n % 100)

/-- Line 56 of the source: datetime.now().strftime("%Y%m%d_%H%M%S"). -/
def fmtTimestamp (t : Timestamp) : String :=
  ⟨pad4 t.year ++ pad2 t.month ++ pad2 t.day ++ ['_'] ++
    pad2 t.hour ++ pad2 t.minute ++ pad2 t.second⟩

/-- pathlib's Path.parent on a POSIX-style path string: everything
before the final component, "." when there is no directory part. -/
def pathParent (p : String) : String :=
  let comps := splitOnChar '/' p.data
  if comps.length ≤ 1 then "."
  else ⟨(comps.dropLast.map (fun c => c ++ ['/'])).flatten.dropLast⟩

/-- The final component of a path string. -/
def pathBasename (p : String) : String :=
  ⟨(splitOnChar '/' p.data).getLastD p.data⟩

/-- Index of the last occurrence of a character. -/
def lastIdxOf (c : Char) : List Char → Option Nat
  | [] => none
  | x :: xs =>
    match lastIdxOf c xs with
    | some i => some (i + 1)
    | none => if x == c then some 0 else none

/-- pathlib's Path.stem: the final component without its suffix; a name
has a suffix only when its last dot is neither first nor last. -/
def pathStem (p : String) : String :=
  let name := (pathBasename p).data
  match lastIdxOf '.' name with
  | some i => if 0 < i ∧ i + 1 < name.length then ⟨name.take i⟩ else ⟨name⟩
  | none => ⟨name⟩

/-- Line 52 of the source: the fixed subdirectory, next to the CSV,
that receives every generated script. -/
def outputDir (csv_path : String) : String :=
  pathParent csv_path ++ "/multiDB_script"

/-- Lines 59-60 of the source: the resolved output file path, embedding
the replay script's stem and the second-granular timestamp. -/
def outputPath (csv_path sql_script_path : String) (now : Timestamp) : String :=
  outputDir csv_path ++ "/" ++
    (pathStem sql_script_path ++ "_multiDB_" ++ fmtTimestamp now ++ ".sql")

/-- "\n".join(lines), the final assembly of the output text. -/
def joinLines (ls : List String) : String := String.intercalate "\n" ls

instance {ε α : Type} [DecidableEq ε] [DecidableEq α] : DecidableEq (Except ε α) := fun a b =>
  match a, b with
  | .ok x, .ok y =>
    if h : x = y then .isTrue (by rw [h]) else .isFalse (fun he => h (Except.ok.inj he))
  | .error x, .error y =>
    if h : x = y then .isTrue (by rw [h]) else .isFalse (fun he => h (Except.error.inj he))
  | .ok _, .error _ => .isFalse (fun he => Except.noConfusion he)
  | .error _, .ok _ => .isFalse (fun he => Except.noConfusion he)

/-- Outcome of one generate_sqlcmd call together with its filesystem
trace: the returned path or raised error, the directories created, and
the (path, text) pairs written. -/
structure RunResult where
  result : Except GenError String
  dirs_created : List String
  files_written : List (String × String)
deriving DecidableEq

/-- The fallible part of a run on a CSV whose on-disk content is
`csv_bytes`: open the CSV (no decoding yet), read and decode it,
validate the header and build one block per row.  The os.startfile
call of the source is Windows GUI convenience with no effect on the
result and is not modelled. -/
def runAttempt (csv_bytes : List Nat) (sql_script_path username password : String) :
    Except GenError (List String) :=
  match open_csv_safely csv_bytes with
  | .error e => .error e
  | .ok f =>
    match readAll f with
    | .error e => .error e
    | .ok text => buildLines (csvParse text) sql_script_path username password

/-- Lines 43-142 of the source, the result and filesystem trace of one
generate_sqlcmd call: the output directory is created first, and only
a fully successful attempt reaches the single write_text call. -/
def generate_sqlcmd (csv_path : String) (csv_bytes : List Nat)
    (sql_script_path username password : String) (now : Timestamp) : RunResult :=
  let output_dir := outputDir csv_path
  let output_file := outputPath csv_path sql_script_path now
  match runAttempt csv_bytes sql_script_path username password with
  | .error e => ⟨.error e, [output_dir], []⟩
  | .ok ls => ⟨.ok output_file, [output_dir], [(output_file, joinLines ls)]⟩

/-- Byte values of an ASCII string, for writing concrete input files. -/
def asciiBytes (s : String) : List Nat := s.data.map Char.toNat

/-- Whether a generated line starts with the given text. -/
def lineStarts (pat line : String) : Bool := pat.data.isPrefixOf line.data

/-- The row blocks generated for an ordered row list, numbered from 1
as enumerate(reader, start=1) numbers them. -/
def rowBlocks (rows : List (List String)) : List String :=
  ((List.enumFrom 1 rows).map
    (fun q => rowBlock q.1 (pyStrip (q.2.getD 0 "")) (pyStrip (q.2.getD 1 "")))).flatten

/-- On-disk bytes of the spec's concrete scenario table. -/
def c2_bytes : List Nat := asciiBytes "server,database\nsrvA,db1\nsrvB,db2\n"

/-- Expected output lines of the concrete scenario, written out
explicitly (only the banner element reuses the banner literal). -/
def c2_expected_lines : List String :=
  [SQLCMD_BANNER,
   "",
   ":setvar USERNAME \"alice\"",
   ":setvar PASSWORD \"s3cret\"",
   ":setvar SCRIPT \"check.sql\"",
   "",
   "------------------------------------------------------------",
   "-- BEGIN EXECUTION",
   "------------------------------------------------------------",
   "",
   "",
   "PRINT '--- [1] db1 on srvA ---'",
   ":CONNECT srvA -U $(USERNAME) -P $(PASSWORD)",
   "USE [db1];",
   ":r $(SCRIPT)",
   "GO",
   "PRINT '---------------------------------------------------------------------------------------------'PRINT ''",
   "PRINT '--- [2] db2 on srvB ---'",
   ":CONNECT srvB -U $(USERNAME) -P $(PASSWORD)",
   "USE [db2];",
   ":r $(SCRIPT)",
   "GO",
   "PRINT '---------------------------------------------------------------------------------------------'PRINT ''"]

/-- Bytes of a table that is invalid UTF-8 (a bare 0xE9) but valid
cp1252 (where 0xE9 decodes as an accented e). -/
def c5_bytes : List Nat := asciiBytes "server,database\nsrv" ++ [0xE9] ++ asciiBytes ",db1"

/-- What the same bytes mean under the cp1252 fallback. -/
def c5_text : String := "server,database\nsrvé,db1"

theorem processRow_len2 (i : Nat) (r : List String) (h : 2 ≤ r.length) :
    processRow i r = .ok (rowBlock i (pyStrip (r.getD 0 "")) (pyStrip (r.getD 1 ""))) := by
  match r with
  | [] => simp only [List.length_nil] at h; omega
  | [a] => simp only [List.length_cons, List.length_nil] at h; omega
  | a :: b :: rest => rfl

theorem processRow_short (i : Nat) (r : List String) (h : r.length < 2) :
    processRow i r = .error .attributeError := by
  match r with
  | [] => rfl
  | [a] => rfl
  | a :: b :: rest =>
    simp only [List.length_cons] at h
    omega

theorem buildBlocksAux_ok (rows : List (List String)) (h : ∀ r ∈ rows, 2 ≤ r.length) :
    ∀ i : Nat, buildBlocks i rows =
      .ok (((List.enumFrom i rows).map
        (fun q => rowBlock q.1 (pyStrip (q.2.getD 0 "")) (pyStrip (q.2.getD 1 "")))).flatten) := by
  induction rows with
  | nil => intro i; rfl
  | cons r rs ih =>
    intro i
    have hr : 2 ≤ r.length := h r (List.mem_cons_self r rs)
    have hrs : ∀ x ∈ rs, 2 ≤ x.length := fun x hx => h x (List.mem_cons_of_mem r hx)
    simp only [buildBlocks, processRow_len2 i r hr, ih hrs (i + 1), List.enumFrom,
      List.map_cons, List.flatten_cons]

theorem buildBlocks_err (rows : List (List String)) (h : ∃ r ∈ rows, r.length < 2) :
    ∀ i : Nat, buildBlocks i rows = .error .attributeError := by
  induction rows with
  | nil =>
    obtain ⟨r, hr, _⟩ := h
    exact absurd hr (List.not_mem_nil r)
  | cons r rs ih =>
    intro i
    by_cases hr2 : r.length < 2
    · simp only [buildBlocks, processRow_short i r hr2]
    · have h2 : 2 ≤ r.length := Nat.le_of_not_lt hr2
      obtain ⟨x, hx, hxl⟩ := h
      have hxrs : x ∈ rs := by
        rcases List.mem_cons.mp hx with h | h
        · exact absurd (h ▸ hxl) hr2
        · exact h
      simp only [buildBlocks, processRow_len2 i r h2, ih ⟨x, hxrs, hxl⟩ (i + 1)]

theorem buildLines_ok (records : List (List String)) (sql u p : String)
    (hhd : records.head? = some ["server", "database"])
    (hlen : ∀ r ∈ validRows records, 2 ≤ r.length) :
    buildLines records sql u p = .ok (headerLines sql u p ++ rowBlocks (validRows records)) := by
  simp only [buildLines, if_pos hhd, buildBlocksAux_ok (validRows records) hlen 1, rowBlocks]

theorem buildLines_attrErr (records : List (List String)) (sql u p : String)
    (hhd : records.head? = some ["server", "database"])
    (hshort : ∃ r ∈ validRows records, r.length < 2) :
    buildLines records sql u p = .error .attributeError := by
  simp only [buildLines, if_pos hhd, buildBlocks_err (validRows records) hshort 1]

theorem buildLines_schema_iff (records : List (List String)) (sql u p : String) :
    buildLines records sql u p = .error .schemaError ↔
      records.head? ≠ some ["server", "database"] := by
  constructor
  · intro h hhd
    rw [buildLines, if_pos hhd] at h
    by_cases hall : ∀ r ∈ validRows records, 2 ≤ r.length
    · rw [buildBlocksAux_ok (validRows records) hall 1] at h
      exact Except.noConfusion h
    · push_neg at hall
      obtain ⟨x, hx, hxl⟩ := hall
      rw [buildBlocks_err (validRows records) ⟨x, hx, hxl⟩ 1] at h
      exact GenError.noConfusion (Except.error.inj h)
  · intro hne
    rw [buildLines, if_neg hne]

theorem open_csv_safely_eq (bytes : List Nat) :
    open_csv_safely bytes = .ok ⟨bytes, PyEncoding.utf8sig⟩ := rfl

theorem runAttempt_eq (bytes : List Nat) (sql u p : String) :
    runAttempt bytes sql u p =
      match utf8SigDecode bytes with
      | some cs => buildLines (csvParse ⟨cs⟩) sql u p
      | none => .error .unicodeDecodeError := by
  cases h : utf8SigDecode bytes <;>
    simp only [runAttempt, open_csv_safely_eq, readAll, decodeBytes, h]

theorem generate_of_attempt_ok (csv_path : String) (bytes : List Nat) (sql u p : String)
    (now : Timestamp) (L : List String) (h : runAttempt bytes sql u p = .ok L) :
    generate_sqlcmd csv_path bytes sql u p now =
      ⟨.ok (outputPath csv_path sql now), [outputDir csv_path],
       [(outputPath csv_path sql now, joinLines L)]⟩ := by
  simp only [generate_sqlcmd, h]

theorem generate_of_attempt_err (csv_path : String) (bytes : List Nat) (sql u p : String)
    (now : Timestamp) (e : GenError) (h : runAttempt bytes sql u p = .error e) :
    generate_sqlcmd csv_path bytes sql u p now = ⟨.error e, [outputDir csv_path], []⟩ := by
  simp only [generate_sqlcmd, h]

theorem generate_ok_blocks (csv_path : String) (bytes : List Nat) (sql u p text : String)
    (now : Timestamp)
    (hdec : readAll ⟨bytes, PyEncoding.utf8sig⟩ = .ok text)
    (hhd : (csvParse text).head? = some ["server", "database"])
    (hlen : ∀ r ∈ validRows (csvParse text), 2 ≤ r.length) :
    generate_sqlcmd csv_path bytes sql u p now =
      ⟨.ok (outputPath csv_path sql now), [outputDir csv_path],
       [(outputPath csv_path sql now,
         joinLines (headerLines sql u p ++ rowBlocks (validRows (csvParse text))))]⟩ := by
  apply generate_of_attempt_ok
  simp only [runAttempt, open_csv_safely_eq, hdec]
  exact buildLines_ok (csvParse text) sql u p hhd hlen

theorem pad2_inj (a b : Nat) (ha : a < 100) (hb : b < 100) (h : pad2 a = pad2 b) : a = b := by
  have hd : ∀ x, x < 10 → ∀ y, y < 10 → digitChar' x = digitChar' y → x = y := by decide
  simp only [pad2, List.cons.injEq, and_true] at h
  obtain ⟨h1, h2⟩ := h
  have d1 : a / 10 = b / 10 :=
    hd _ (Nat.div_lt_of_lt_mul (by omega)) _ (Nat.div_lt_of_lt_mul (by omega)) h1
  have d2 : a % 10 = b % 10 :=
    hd _ (Nat.mod_lt _ (by omega)) _ (Nat.mod_lt _ (by omega)) h2
  omega

theorem pad4_inj (a b : Nat) (ha : a < 10000) (hb : b < 10000) (h : pad4 a = pad4 b) : a = b := by
  obtain ⟨h1, h2⟩ := List.append_inj h rfl
  have d1 : a / 100 = b / 100 :=
    pad2_inj _ _ (Nat.div_lt_of_lt_mul (by omega)) (Nat.div_lt_of_lt_mul (by omega)) h1
  have d2 : a % 100 = b % 100 :=
    pad2_inj _ _ (Nat.mod_lt _ (by omega)) (Nat.mod_lt _ (by omega)) h2
  omega

theorem fmtTimestamp_inj (t1 t2 : Timestamp) (h1 : t1.Valid) (h2 : t2.Valid)
    (h : fmtTimestamp t1 = fmtTimestamp t2) : t1 = t2 := by
  obtain ⟨y1, mo1, d1, hh1, mi1, s1⟩ := t1
  obtain ⟨y2, mo2, d2, hh2, mi2, s2⟩ := t2
  simp only [Timestamp.Valid] at h1 h2
  obtain ⟨hy1a, hy1b, hmo1a, hmo1b, hd1a, hd1b, hhh1, hmi1, hs1⟩ := h1
  obtain ⟨hy2a, hy2b, hmo2a, hmo2b, hd2a, hd2b, hhh2, hmi2, hs2⟩ := h2
  have hl : pad4 y1 ++ pad2 mo1 ++ pad2 d1 ++ ['_'] ++ pad2 hh1 ++ pad2 mi1 ++ pad2 s1 =
      pad4 y2 ++ pad2 mo2 ++ pad2 d2 ++ ['_'] ++ pad2 hh2 ++ pad2 mi2 ++ pad2 s2 :=
    congrArg String.data h
  obtain ⟨hl, hs⟩ := List.append_inj' hl rfl
  obtain ⟨hl, hmi⟩ := List.append_inj' hl rfl
  obtain ⟨hl, hhh⟩ := List.append_inj' hl rfl
  obtain ⟨hl, -⟩ := List.append_inj' hl rfl
  obtain ⟨hl, hd⟩ := List.append_inj' hl rfl
  obtain ⟨hy, hmo⟩ := List.append_inj' hl rfl
  simp only [Timestamp.mk.injEq]
  refine ⟨pad4_inj _ _ (by omega) (by omega) hy, pad2_inj _ _ (by omega) (by omega) hmo,
    pad2_inj _ _ (by omega) (by omega) hd, pad2_inj _ _ (by omega) (by omega) hhh,
    pad2_inj _ _ (by omega) (by omega) hmi, pad2_inj _ _ (by omega) (by omega) hs⟩

theorem outputPath_ne (csv_path sql : String) (t1 t2 : Timestamp)
    (h1 : t1.Valid) (h2 : t2.Valid) (hne : t1 ≠ t2) :
    outputPath csv_path sql t1 ≠ outputPath csv_path sql t2 := by
  intro h
  apply hne
  apply fmtTimestamp_inj t1 t2 h1 h2
  have hd := congrArg String.data h
  simp only [outputPath, String.data_append, List.append_assoc] at hd
  have hd := List.append_cancel_left hd
  have hd := List.append_cancel_left hd
  have hd := List.append_cancel_left hd
  have hd := List.append_cancel_left hd
  have hd := List.append_cancel_right hd
  exact congrArg String.mk hd

/-- C1: for every input table whose header is accepted and whose data
rows all carry both fields, the run writes exactly one output whose
text is the preamble followed by one block per data row in input-file
order, the blocks numbered by enumerate starting at 1, so the sequence
numbers are exactly 1..N with no gaps; nothing is deduplicated,
merged or reordered (the block list is a per-row map). -/
theorem claim1_blocks_one_per_row
    (csv_path : String) (csv_bytes : List Nat) (sql u p text : String) (now : Timestamp)
    (hdec : readAll ⟨csv_bytes, PyEncoding.utf8sig⟩ = .ok text)
    (hhd : (csvParse text).head? = some ["server", "database"])
    (hlen : ∀ r ∈ validRows (csvParse text), 2 ≤ r.length) :
    (generate_sqlcmd csv_path csv_bytes sql u p now).files_written =
      [(outputPath csv_path sql now,
        joinLines (headerLines sql u p ++ rowBlocks (validRows (csvParse text))))] ∧
    ((List.enumFrom 1 (validRows (csvParse text))).map
        (fun q => rowBlock q.1 (pyStrip (q.2.getD 0 "")) (pyStrip (q.2.getD 1 "")))).length =
      (validRows (csvParse text)).length ∧
    (List.enumFrom 1 (validRows (csvParse text))).map Prod.fst =
      List.range' 1 (validRows (csvParse text)).length := by
  refine ⟨?_, by simp, List.enumFrom_map_fst _ _⟩
  rw [generate_ok_blocks csv_path csv_bytes sql u p text now hdec hhd hlen]

/-- C6 (code bug): the emitted row block is six lines whose first five
are the progress print, the connect directive, the database selection,
the replay directive and the batch terminator, but its last line is
the accidental concatenation of the three trailing source literals
("PRINT '---...---'" followed immediately by "PRINT ''"), so a block
never ends with a blank separator line. -/
theorem claim6_no_blank_separator (i : Nat) (s d : String) :
    (rowBlock i s d).length = 6 ∧
    (rowBlock i s d).getLast? =
      some "PRINT '---------------------------------------------------------------------------------------------'PRINT ''" ∧
    (rowBlock i s d).getLast? ≠ some "" := by
  refine ⟨rfl, rfl, fun h => ?_⟩
  have hm : (rowBlock i s d).getLast? =
      some "PRINT '---------------------------------------------------------------------------------------------'PRINT ''" := rfl
  exact absurd (Option.some.inj (hm.symm.trans h)) (by decide)

/-- C7: whenever a run fails (decoding, header validation or row
processing), it writes no output file at all. -/
theorem claim7_no_partial_output (csv_path : String) (csv_bytes : List Nat)
    (sql u p : String) (now : Timestamp) (e : GenError)
    (h : (generate_sqlcmd csv_path csv_bytes sql u p now).result = .error e) :
    (generate_sqlcmd csv_path csv_bytes sql u p now).files_written = [] := by
  cases hA : runAttempt csv_bytes sql u p with
  | error e' => rw [generate_of_attempt_err csv_path csv_bytes sql u p now e' hA]
  | ok L =>
    rw [generate_of_attempt_ok csv_path csv_bytes sql u p now L hA] at h
    exact Except.noConfusion h

/-- C8: an input table holding only the valid header row succeeds and
writes an output consisting of the preamble alone, with zero row
blocks. -/
theorem claim8_header_only (csv_path sql u p : String) (now : Timestamp) :
    generate_sqlcmd csv_path (asciiBytes "server,database\n") sql u p now =
      ⟨.ok (outputPath csv_path sql now), [outputDir csv_path],
       [(outputPath csv_path sql now, joinLines (headerLines sql u p))]⟩ := by
  rw [generate_ok_blocks csv_path (asciiBytes "server,database\n") sql u p
    "server,database\n" now rfl rfl (by decide)]
  rw [show rowBlocks (validRows (csvParse "server,database\n")) = [] from rfl,
    List.append_nil]

/-- C10: with an accepted header, a data row with fewer fields than the
header aborts the whole run with an uncaught AttributeError (None has
no .strip), not one of the structured errors, and no output file is
written. -/
theorem claim10_short_row_attribute_error
    (csv_path : String) (csv_bytes : List Nat) (sql u p text : String) (now : Timestamp)
    (hdec : readAll ⟨csv_bytes, PyEncoding.utf8sig⟩ = .ok text)
    (hhd : (csvParse text).head? = some ["server", "database"])
    (hshort : ∃ r ∈ validRows (csvParse text), r.length < 2) :
    generate_sqlcmd csv_path csv_bytes sql u p now =
      ⟨.error .attributeError, [outputDir csv_path], []⟩ := by
  apply generate_of_attempt_err
  simp only [runAttempt, open_csv_safely_eq, hdec]
  exact buildLines_attrErr (csvParse text) sql u p hhd hshort

/-- C2: on the concrete scenario (rows srvA/db1 and srvB/db2, script
check.sql, user alice, secret s3cret) the run writes exactly the
preamble declaring the three variables with the request values
embedded verbatim and unescaped — each setvar appearing exactly once —
followed by the begin-execution marker and the srvA/db1 block numbered
1 then the srvB/db2 block numbered 2. -/
theorem claim2_concrete_output :
    generate_sqlcmd "servers.csv" c2_bytes "check.sql" "alice" "s3cret" ⟨2026, 1, 3, 22, 9, 15⟩ =
      ⟨.ok "./multiDB_script/check_multiDB_20260103_220915.sql", ["./multiDB_script"],
       [("./multiDB_script/check_multiDB_20260103_220915.sql", joinLines c2_expected_lines)]⟩ ∧
    c2_expected_lines.countP (lineStarts ":setvar USERNAME ") = 1 ∧
    c2_expected_lines.countP (lineStarts ":setvar PASSWORD ") = 1 ∧
    c2_expected_lines.countP (lineStarts ":setvar SCRIPT ") = 1 :=
  ⟨rfl, by decide, by decide, by decide⟩

/-- C3 counterexample: a header carrying exactly the two expected
columns in the other order (database,server) is rejected with the
schema ValueError and nothing is written, refuting the claim that any
column order is accepted. -/
theorem claim3_counterexample_reversed_header :
    generate_sqlcmd "servers.csv" (asciiBytes "database,server\ndb1,srvA\n") "check.sql"
        "alice" "s3cret" ⟨2026, 1, 3, 22, 9, 15⟩ =
      ⟨.error .schemaError, ["./multiDB_script"], []⟩ := by decide

/-- C3 (amended): the header check is an ordered list comparison; a run
fails with the invalid-headers ValueError and writes no output file if
and only if the first record is not exactly server,database in that
column order; any other header — extra column, missing column, renamed
column, or the two columns reversed — is rejected before any data row
is processed. -/
theorem claim3_header_exact_order
    (csv_path : String) (csv_bytes : List Nat) (sql u p text : String) (now : Timestamp)
    (hdec : readAll ⟨csv_bytes, PyEncoding.utf8sig⟩ = .ok text) :
    ((generate_sqlcmd csv_path csv_bytes sql u p now).result = .error .schemaError ∧
     (generate_sqlcmd csv_path csv_bytes sql u p now).files_written = []) ↔
      (csvParse text).head? ≠ some ["server", "database"] := by
  have hA : runAttempt csv_bytes sql u p = buildLines (csvParse text) sql u p := by
    simp only [runAttempt, open_csv_safely_eq, hdec]
  constructor
  · rintro ⟨hres, -⟩
    rw [← buildLines_schema_iff (csvParse text) sql u p]
    cases hB : buildLines (csvParse text) sql u p with
    | ok L =>
      rw [generate_of_attempt_ok csv_path csv_bytes sql u p now L (hA.trans hB)] at hres
      exact Except.noConfusion hres
    | error e =>
      rw [generate_of_attempt_err csv_path csv_bytes sql u p now e (hA.trans hB)] at hres
      have he : e = .schemaError := Except.error.inj hres
      rw [he]
  · intro hne
    rw [generate_of_attempt_err csv_path csv_bytes sql u p now .schemaError
      (hA.trans ((buildLines_schema_iff (csvParse text) sql u p).mpr hne))]
    exact ⟨rfl, rfl⟩

/-- C4 counterexample: a data row whose server field is blank after
trimming does not fail — the run succeeds, writes the output file, and
its single block embeds the blank identifier (empty server name in the
progress print and connect directive), refuting the claimed RowError. -/
theorem claim4_counterexample_blank_field :
    generate_sqlcmd "servers.csv" (asciiBytes "server,database\n   ,db1\n") "check.sql"
        "alice" "s3cret" ⟨2026, 1, 3, 22, 9, 15⟩ =
      ⟨.ok "./multiDB_script/check_multiDB_20260103_220915.sql", ["./multiDB_script"],
       [("./multiDB_script/check_multiDB_20260103_220915.sql",
         joinLines (headerLines "check.sql" "alice" "s3cret" ++ rowBlock 1 "" "db1"))]⟩ := rfl

/-- C4 (amended): the code only trims and never rejects blank fields
(it defines no RowError); a row whose server or database is blank
after trimming still yields a normal block with the blank value
embedded, and generation succeeds. -/
theorem claim4_blank_fields_not_rejected (s d sql u p : String)
    (_blank : pyStrip s = "" ∨ pyStrip d = "") :
    buildLines [["server", "database"], [s, d]] sql u p =
      .ok (headerLines sql u p ++ rowBlock 1 (pyStrip s) (pyStrip d)) := by
  have h1 : buildLines [["server", "database"], [s, d]] sql u p =
      .ok (headerLines sql u p ++ (rowBlock 1 (pyStrip s) (pyStrip d) ++ [])) := rfl
  rw [h1, List.append_nil]

/-- C5 (code bug): Python's open defers decoding, so open_csv_safely
always returns a handle for the first candidate encoding and the
cp1252 fallback is unreachable; on bytes that are invalid UTF-8 but
valid cp1252 the run aborts with an uncaught UnicodeDecodeError (not
the guidance-carrying EncodingError) and writes nothing, even though
the cp1252 decoding exists and building from it would have succeeded. -/
theorem claim5_fallback_dead :
    (∀ bs : List Nat, open_csv_safely bs = .ok ⟨bs, PyEncoding.utf8sig⟩) ∧
    generate_sqlcmd "servers.csv" c5_bytes "check.sql" "alice" "s3cret"
        ⟨2026, 1, 3, 22, 9, 15⟩ =
      ⟨.error .unicodeDecodeError, ["./multiDB_script"], []⟩ ∧
    cp1252Decode c5_bytes = some c5_text.data ∧
    buildLines (csvParse c5_text) "check.sql" "alice" "s3cret" =
      .ok (headerLines "check.sql" "alice" "s3cret" ++ rowBlock 1 "srvé" "db1") :=
  ⟨fun bs => rfl, by decide, by decide, by
    have h1 : buildLines (csvParse c5_text) "check.sql" "alice" "s3cret" =
        .ok (headerLines "check.sql" "alice" "s3cret" ++
          (rowBlock 1 "srvé" "db1" ++ [])) := rfl
    rw [h1, List.append_nil]⟩

/-- C9: the resolved output path lies in the fixed multiDB_script
subdirectory next to the input table (created at the start of every
run) and embeds the whole-second timestamp; two runs with identical
inputs at distinct valid timestamps resolve two distinct paths, and
each run independently writes the same header-plus-N-blocks text to
its own path. -/
theorem claim9_distinct_paths
    (csv_path : String) (csv_bytes : List Nat) (sql u p text : String) (t1 t2 : Timestamp)
    (hdec : readAll ⟨csv_bytes, PyEncoding.utf8sig⟩ = .ok text)
    (hhd : (csvParse text).head? = some ["server", "database"])
    (hlen : ∀ r ∈ validRows (csvParse text), 2 ≤ r.length)
    (hv1 : t1.Valid) (hv2 : t2.Valid) (hne : t1 ≠ t2) :
    outputPath csv_path sql t1 ≠ outputPath csv_path sql t2 ∧
    (generate_sqlcmd csv_path csv_bytes sql u p t1).dirs_created = [outputDir csv_path] ∧
    (generate_sqlcmd csv_path csv_bytes sql u p t1).files_written =
      [(outputPath csv_path sql t1,
        joinLines (headerLines sql u p ++ rowBlocks (validRows (csvParse text))))] ∧
    (generate_sqlcmd csv_path csv_bytes sql u p t2).files_written =
      [(outputPath csv_path sql t2,
        joinLines (headerLines sql u p ++ rowBlocks (validRows (csvParse text))))] := by
  refine ⟨outputPath_ne csv_path sql t1 t2 hv1 hv2 hne, ?_, ?_, ?_⟩ <;>
    rw [generate_ok_blocks csv_path csv_bytes sql u p text _ hdec hhd hlen]

/-- Witness for C1 at a concrete two-row table whose rows are identical,
exercising the duplicate-rows-kept behaviour. -/
theorem claim1_blocks_one_per_row_witness :
    (readAll ⟨asciiBytes "server,database\nsrvA,db1\nsrvA,db1\n", PyEncoding.utf8sig⟩ =
      .ok "server,database\nsrvA,db1\nsrvA,db1\n") ∧
    ((csvParse "server,database\nsrvA,db1\nsrvA,db1\n").head? = some ["server", "database"]) ∧
    (∀ r ∈ validRows (csvParse "server,database\nsrvA,db1\nsrvA,db1\n"), 2 ≤ r.length) ∧
    ((generate_sqlcmd "servers.csv" (asciiBytes "server,database\nsrvA,db1\nsrvA,db1\n")
        "check.sql" "alice" "s3cret" ⟨2026, 1, 3, 22, 9, 15⟩).files_written =
      [(outputPath "servers.csv" "check.sql" ⟨2026, 1, 3, 22, 9, 15⟩,
        joinLines (headerLines "check.sql" "alice" "s3cret" ++
          rowBlocks (validRows (csvParse "server,database\nsrvA,db1\nsrvA,db1\n"))))] ∧
     ((List.enumFrom 1 (validRows (csvParse "server,database\nsrvA,db1\nsrvA,db1\n"))).map
        (fun q => rowBlock q.1 (pyStrip (q.2.getD 0 "")) (pyStrip (q.2.getD 1 "")))).length =
      (validRows (csvParse "server,database\nsrvA,db1\nsrvA,db1\n")).length ∧
     (List.enumFrom 1 (validRows (csvParse "server,database\nsrvA,db1\nsrvA,db1\n"))).map
        Prod.fst =
      List.range' 1 (validRows (csvParse "server,database\nsrvA,db1\nsrvA,db1\n")).length) :=
  ⟨by decide, by decide, by decide,
   claim1_blocks_one_per_row "servers.csv" (asciiBytes "server,database\nsrvA,db1\nsrvA,db1\n")
     "check.sql" "alice" "s3cret" "server,database\nsrvA,db1\nsrvA,db1\n"
     ⟨2026, 1, 3, 22, 9, 15⟩ (by decide) (by decide) (by decide)⟩

/-- Witness for C3 at a concrete reversed-header table. -/
theorem claim3_header_exact_order_witness :
    (readAll ⟨asciiBytes "database,server\ndb1,srvA\n", PyEncoding.utf8sig⟩ =
      .ok "database,server\ndb1,srvA\n") ∧
    (((generate_sqlcmd "servers.csv" (asciiBytes "database,server\ndb1,srvA\n") "check.sql"
          "alice" "s3cret" ⟨2026, 1, 3, 22, 9, 15⟩).result = .error .schemaError ∧
      (generate_sqlcmd "servers.csv" (asciiBytes "database,server\ndb1,srvA\n") "check.sql"
          "alice" "s3cret" ⟨2026, 1, 3, 22, 9, 15⟩).files_written = []) ↔
      (csvParse "database,server\ndb1,srvA\n").head? ≠ some ["server", "database"]) :=
  ⟨by decide,
   claim3_header_exact_order "servers.csv" (asciiBytes "database,server\ndb1,srvA\n")
     "check.sql" "alice" "s3cret" "database,server\ndb1,srvA\n"
     ⟨2026, 1, 3, 22, 9, 15⟩ (by decide)⟩

/-- Witness for the amended C4 at a concrete blank server field. -/
theorem claim4_blank_fields_not_rejected_witness :
    (pyStrip "   " = "" ∨ pyStrip "db1" = "") ∧
    buildLines [["server", "database"], ["   ", "db1"]] "check.sql" "alice" "s3cret" =
      .ok (headerLines "check.sql" "alice" "s3cret" ++
        rowBlock 1 (pyStrip "   ") (pyStrip "db1")) :=
  ⟨Or.inl (by decide),
   claim4_blank_fields_not_rejected "   " "db1" "check.sql" "alice" "s3cret"
     (Or.inl (by decide))⟩

/-- Witness for C7 at a concrete run failing the header check. -/
theorem claim7_no_partial_output_witness :
    ((generate_sqlcmd "servers.csv" (asciiBytes "host,db\nx,y\n") "check.sql" "alice" "s3cret"
        ⟨2026, 1, 3, 22, 9, 15⟩).result = .error .schemaError) ∧
    (generate_sqlcmd "servers.csv" (asciiBytes "host,db\nx,y\n") "check.sql" "alice" "s3cret"
        ⟨2026, 1, 3, 22, 9, 15⟩).files_written = [] :=
  ⟨by decide,
   claim7_no_partial_output "servers.csv" (asciiBytes "host,db\nx,y\n") "check.sql" "alice"
     "s3cret" ⟨2026, 1, 3, 22, 9, 15⟩ .schemaError (by decide)⟩

/-- Witness for C9 at two concrete timestamps one second apart. -/
theorem claim9_distinct_paths_witness :
    (readAll ⟨asciiBytes "server,database\nsrvA,db1\n", PyEncoding.utf8sig⟩ =
      .ok "server,database\nsrvA,db1\n") ∧
    ((csvParse "server,database\nsrvA,db1\n").head? = some ["server", "database"]) ∧
    (∀ r ∈ validRows (csvParse "server,database\nsrvA,db1\n"), 2 ≤ r.length) ∧
    Timestamp.Valid ⟨2026, 1, 3, 22, 9, 15⟩ ∧ Timestamp.Valid ⟨2026, 1, 3, 22, 9, 16⟩ ∧
    (⟨2026, 1, 3, 22, 9, 15⟩ : Timestamp) ≠ ⟨2026, 1, 3, 22, 9, 16⟩ ∧
    (outputPath "servers.csv" "check.sql" ⟨2026, 1, 3, 22, 9, 15⟩ ≠
      outputPath "servers.csv" "check.sql" ⟨2026, 1, 3, 22, 9, 16⟩ ∧
     (generate_sqlcmd "servers.csv" (asciiBytes "server,database\nsrvA,db1\n") "check.sql"
        "alice" "s3cret" ⟨2026, 1, 3, 22, 9, 15⟩).dirs_created = [outputDir "servers.csv"] ∧
     (generate_sqlcmd "servers.csv" (asciiBytes "server,database\nsrvA,db1\n") "check.sql"
        "alice" "s3cret" ⟨2026, 1, 3, 22, 9, 15⟩).files_written =
      [(outputPath "servers.csv" "check.sql" ⟨2026, 1, 3, 22, 9, 15⟩,
        joinLines (headerLines "check.sql" "alice" "s3cret" ++
          rowBlocks (validRows (csvParse "server,database\nsrvA,db1\n"))))] ∧
     (generate_sqlcmd "servers.csv" (asciiBytes "server,database\nsrvA,db1\n") "check.sql"
        "alice" "s3cret" ⟨2026, 1, 3, 22, 9, 16⟩).files_written =
      [(outputPath "servers.csv" "check.sql" ⟨2026, 1, 3, 22, 9, 16⟩,
        joinLines (headerLines "check.sql" "alice" "s3cret" ++
          rowBlocks (validRows (csvParse "server,database\nsrvA,db1\n"))))]) :=
  ⟨by decide, by decide, by decide, by decide, by decide, by decide,
   claim9_distinct_paths "servers.csv" (asciiBytes "server,database\nsrvA,db1\n") "check.sql"
     "alice" "s3cret" "server,database\nsrvA,db1\n" ⟨2026, 1, 3, 22, 9, 15⟩
     ⟨2026, 1, 3, 22, 9, 16⟩ (by decide) (by decide) (by decide) (by decide) (by decide)
     (by decide)⟩

/-- Witness for C10 at a concrete table whose single data row carries
only a server value. -/
theorem claim10_short_row_attribute_error_witness :
    (readAll ⟨asciiBytes "server,database\nsrvOnly\n", PyEncoding.utf8sig⟩ =
      .ok "server,database\nsrvOnly\n") ∧
    ((csvParse "server,database\nsrvOnly\n").head? = some ["server", "database"]) ∧
    (∃ r ∈ validRows (csvParse "server,database\nsrvOnly\n"), r.length < 2) ∧
    generate_sqlcmd "servers.csv" (asciiBytes "server,database\nsrvOnly\n") "check.sql"
        "alice" "s3cret" ⟨2026, 1, 3, 22, 9, 15⟩ =
      ⟨.error .attributeError, [outputDir "servers.csv"], []⟩ :=
  ⟨by decide, by decide, by decide,
   claim10_short_row_attribute_error "servers.csv" (asciiBytes "server,database\nsrvOnly\n")
     "check.sql" "alice" "s3cret" "server,database\nsrvOnly\n" ⟨2026, 1, 3, 22, 9, 15⟩
     (by decide) (by decide) (by decide)⟩
